import Mathlib

/-
  Verification development for the fireman FiremanQL query engine
  (src/firestore/firestore.ts): a shallow embedding of the query
  classifier, the reference builder, the one-shot executor, the live
  listener handlers and the process-wide subscription slot, together
  with theorems about them.
-/

namespace Fireman

/-- Firestore field values, treated opaquely by the query engine. -/
inductive FsValue where
  | str (s : String)
  | num (n : Int)
  | boolVal (b : Bool)
  | nullVal
deriving DecidableEq, Repr

/-- Sub-components of a collection expression, as produced by the external
parser: where(field, operator, value), limit(n) and order(field, direction). -/
inductive ExpressionComponent where
  | whereC (field : String) (operator : String) (value : FsValue)
  | limitC (limit : Int)
  | orderC (field : String) (direction : Int)
deriving DecidableEq, Repr

/-- Parsed FiremanQL components (enum ComponentType in firestore.ts):
literal path segments, the all wildcard, collection expressions and
document expressions. -/
inductive Component where
  | literal (value : String)
  | all
  | collectionExpression (components : List ExpressionComponent)
  | documentExpression (components : List String)
deriving DecidableEq, Repr

/-- QueryType enum from firestore.ts. -/
inductive QueryType where
  | DOCUMENT
  | COLLECTION
deriving DecidableEq, Repr

/-- Tests whether a component is of variant literal. -/
def Component.isLiteral : Component → Bool
  | .literal _ => true
  | _ => false

/-- getQueryType from firestore.ts: the JavaScript expression
components.filter(isLiteral).length % 2 is truthy (nonzero) exactly when
the literal count is odd, in which case the ternary yields COLLECTION,
otherwise DOCUMENT. -/
def getQueryType (components : List Component) : QueryType :=
  if (components.filter Component.isLiteral).length % 2 ≠ 0 then
    QueryType.COLLECTION
  else
    QueryType.DOCUMENT

/-- Sort directions of the Firestore orderBy call. -/
inductive SortDir where
  | asc
  | desc
deriving DecidableEq, Repr

/-- Firestore references as syntax trees of the navigation and refinement
calls issued by parseQuery: root is the Firestore instance, collection and
doc are the child-navigation calls, and whereR, limitR, orderByR are the
query refinement calls. -/
inductive Reference where
  | root
  | collection (parent : Reference) (name : String)
  | doc (parent : Reference) (name : String)
  | whereR (parent : Reference) (field : String) (operator : String) (value : FsValue)
  | limitR (parent : Reference) (n : Int)
  | orderByR (parent : Reference) (field : String) (dir : SortDir)
deriving DecidableEq, Repr

/-- Models the instanceof CollectionReference check: in the Firestore SDK
only the result of a collection(name) call is a CollectionReference;
where, limit and orderBy return a plain Query, doc returns a
DocumentReference, and the root is the Firestore instance itself. -/
def Reference.isCollectionReference : Reference → Bool
  | .collection _ _ => true
  | _ => false

/-- The local state of parseQuery: the cursor reference, the boolean
collection flag (true when the next literal navigates into a collection),
the accumulated projection field list and the documentExpression flag. -/
structure ParseState where
  reference : Reference
  collection : Bool
  specificProperties : List String
  documentExpression : Bool
deriving DecidableEq, Repr

/-- One iteration of the inner loop over a collection expression in
parseQuery: where, limit and order sub-components each turn into the
corresponding refinement call, with direction 1 mapped to ascending and
any other direction to descending. -/
def applyExpressionComponent (r : Reference) : ExpressionComponent → Reference
  | .whereC field operator value => Reference.whereR r field operator value
  | .limitC n => Reference.limitR r n
  | .orderC field direction =>
      Reference.orderByR r field (if direction = 1 then SortDir.asc else SortDir.desc)

/-- One iteration of the main loop of parseQuery over a component. -/
def processComponent (st : ParseState) : Component → ParseState
  | .literal url =>
      if st.collection then
        { st with collection := false, reference := Reference.collection st.reference url }
      else
        { st with collection := true, reference := Reference.doc st.reference url }
  | .all => { st with collection := true }
  | .collectionExpression comps =>
      if st.reference.isCollectionReference then
        { st with reference := comps.foldl applyExpressionComponent st.reference }
      else
        st
  | .documentExpression comps =>
      { st with specificProperties := comps, documentExpression := true }

/-- The initial state of parseQuery: reference = firestore (the root),
collection = true, specificProperties = [], documentExpression = false. -/
def initState : ParseState :=
  { reference := Reference.root
    collection := true
    specificProperties := []
    documentExpression := false }

/-- parseQuery from firestore.ts, with the Firebase connection
initialization side effects abstracted away: a fold of the per-component
loop body over the component sequence. -/
def parseQuery (components : List Component) : ParseState :=
  components.foldl processComponent initState

/-- An error value: JavaScript Error objects are compared here by message. -/
structure Err where
  message : String
deriving DecidableEq, Repr

/-- The error thrown or delivered when a DOCUMENT-mode query hits a
document that does not exist. -/
def noSuchDocument : Err := { message := "No such document" }

/-- A snapshot handed back by the store for a single document: its path,
whether the document exists, and its field data. -/
structure DocumentSnapshot where
  path : List String
  docExists : Bool
  data : List (String × FsValue)
deriving DecidableEq, Repr

/-- Modelled from the spec: the Document class lives in
src/firestore/document.ts, which is not among the provided sources.
Section 4.4 specifies Document.fromReference as binding a location, and
setData as populating data by copying only the listed fields when a
projection is active, or all fields otherwise, and setting metadata.docExists
from the snapshot. -/
structure Document where
  path : List String
  data : List (String × FsValue)
  docExists : Bool
deriving DecidableEq, Repr

/-- Modelled from the spec: the combination Document.fromDocumentReference
followed by setData(snapshot, specificProperties), per section 4.4; an
empty specificProperties list means no projection is active and all fields
are copied. -/
def mkDocument (snapshot : DocumentSnapshot) (specificProperties : List String) : Document :=
  { path := snapshot.path
    data :=
      if specificProperties.isEmpty then snapshot.data
      else snapshot.data.filter (fun p => specificProperties.contains p.1)
    docExists := snapshot.docExists }

/-- Modelled from the spec: the QueryResult class lives in
src/firestore/query-result.ts, which is not among the provided sources.
Section 3 specifies the result model as a document list together with a
projected flag; its constructor takes the two in that order, matching the
call sites new QueryResult(documents, flag) in firestore.ts. -/
structure QueryResult where
  documents : List Document
  projected : Bool
deriving DecidableEq, Repr

/-- getResult from firestore.ts, with the asynchronous store fetch
abstracted as input data: DOCUMENT mode consumes the snapshot of the
single referenced document, COLLECTION mode consumes the list of
snapshots the store returned, in store order. The COLLECTION branch is
the forEach push loop of the source. -/
def getResult (queryType : QueryType) (docSnapshot : DocumentSnapshot)
    (collSnapshots : List DocumentSnapshot) (specificProperties : List String) :
    Except Err (List Document) :=
  match queryType with
  | QueryType.DOCUMENT =>
      if docSnapshot.docExists then
        Except.ok [mkDocument docSnapshot specificProperties]
      else
        Except.error noSuchDocument
  | QueryType.COLLECTION =>
      Except.ok (collSnapshots.foldl
        (fun documents s => documents ++ [mkDocument s specificProperties]) [])

/-- A single invocation of the change listener: the result argument and the
error argument, each possibly null. -/
def ListenerCall : Type := Option QueryResult × Option Err
deriving instance DecidableEq, Repr for ListenerCall

/-- The snapshot callback installed by setListener in DOCUMENT mode: an
existing document is delivered as a one-document QueryResult whose
projected flag is specificProperties.length greater than zero, and a
missing document is delivered as a null result with a No such document
error. -/
def documentSnapshotHandler (specificProperties : List String)
    (snapshot : DocumentSnapshot) : ListenerCall :=
  if snapshot.docExists then
    (some { documents := [mkDocument snapshot specificProperties]
            projected := decide (0 < specificProperties.length) }, none)
  else
    (none, some noSuchDocument)

/-- The snapshot callback installed by setListener in COLLECTION mode: the
forEach loop pushes one Document per existing snapshot and delivers the
list with a null error. -/
def collectionSnapshotHandler (specificProperties : List String)
    (snapshots : List DocumentSnapshot) : ListenerCall :=
  (some { documents :=
            snapshots.foldl
              (fun documents s =>
                if s.docExists then documents ++ [mkDocument s specificProperties]
                else documents) []
          projected := decide (0 < specificProperties.length) }, none)

/-- The error callback registered by setListener on both subscription
modes: error goes to onChangeListener(null, error). -/
def listenerErrorHandler (error : Err) : ListenerCall :=
  (none, some error)

/-- A registered live subscription as installed by setListener: exactly one
snapshot handler according to the query type, plus the error handler. The
handlers are pure delivery functions; the model has no retry or
re-registration action. -/
structure Subscription where
  onDocEvent : Option (DocumentSnapshot → ListenerCall)
  onCollEvent : Option (List DocumentSnapshot → ListenerCall)
  onError : Err → ListenerCall

/-- setListener from firestore.ts, as the subscription it registers. -/
def setListener (queryType : QueryType) (specificProperties : List String) :
    Subscription :=
  match queryType with
  | QueryType.DOCUMENT =>
      { onDocEvent := some (documentSnapshotHandler specificProperties)
        onCollEvent := none
        onError := listenerErrorHandler }
  | QueryType.COLLECTION =>
      { onDocEvent := none
        onCollEvent := some (collectionSnapshotHandler specificProperties)
        onError := listenerErrorHandler }

/-- Process-wide live-subscription state: the store keeps every registered
listener active until its unsubscribe handle is invoked, while the module
keeps a single exported unsubscribeListener slot. Subscriptions are
identified by the order of registration; nextId is the identity the next
registration will receive. -/
structure ProcessState where
  activeSubs : List Nat
  nextId : Nat
  unsubscribeSlot : Option Nat
deriving DecidableEq, Repr

/-- The slot update performed by every setListener call: the new
subscription becomes active and unsubscribeListener is overwritten with
the new unsubscribe handle. -/
def registerListener (st : ProcessState) : ProcessState :=
  { activeSubs := st.activeSubs ++ [st.nextId]
    nextId := st.nextId + 1
    unsubscribeSlot := some st.nextId }

/-- Calling the function currently stored in unsubscribeListener: it
cancels the subscription the slot refers to (a no-op when the slot is
empty); the slot itself is a plain variable and keeps its value. -/
def invokeUnsubscribe (st : ProcessState) : ProcessState :=
  match st.unsubscribeSlot with
  | none => st
  | some i => { st with activeSubs := st.activeSubs.filter (fun j => j ≠ i) }

/-- The operations the process can perform on the subscription state. -/
inductive SubOp where
  | register
  | unsubscribeCall
deriving DecidableEq, Repr

/-- Runs a sequence of subscription operations. -/
def runOps (st : ProcessState) (ops : List SubOp) : ProcessState :=
  ops.foldl (fun s op =>
    match op with
    | SubOp.register => registerListener s
    | SubOp.unsubscribeCall => invokeUnsubscribe s) st

/-- The observable outcome of one call to query: the listener invocations
performed synchronously and the settled promise (ok none when live-mode
registration succeeded and nothing is returned). -/
structure QueryOutcome where
  listenerCalls : List ListenerCall
  promise : Except Err (Option QueryResult)
deriving Repr

/-- query from firestore.ts with its collaborators abstracted as inputs:
parseResult stands for FQLParser.parse(queryString), registerFail for an
exception thrown during reference building or listener registration in
live mode, and docSnapshot and collSnapshots for the awaited store
fetches. The catch block invokes the listener with (null, e) when one was
provided and rejects the promise with the same error. -/
def queryModel (parseResult : Except Err (List Component))
    (registerFail : Option Err) (docSnapshot : DocumentSnapshot)
    (collSnapshots : List DocumentSnapshot) (hasListener : Bool) : QueryOutcome :=
  match parseResult with
  | Except.error e =>
      { listenerCalls := if hasListener then [(none, some e)] else []
        promise := Except.error e }
  | Except.ok components =>
      let queryType := getQueryType components
      let st := parseQuery components
      if hasListener then
        match registerFail with
        | some e =>
            { listenerCalls := [(none, some e)], promise := Except.error e }
        | none => { listenerCalls := [], promise := Except.ok none }
      else
        match getResult queryType docSnapshot collSnapshots st.specificProperties with
        | Except.error e => { listenerCalls := [], promise := Except.error e }
        | Except.ok docs =>
            { listenerCalls := []
              promise := Except.ok (some { documents := docs
                                           projected := st.documentExpression }) }

/-- Modelled from the spec for refinement comparison (section 4.2): the
cursor walk written directly from the specification text, carrying the
cursor and the expectingCollection flag. Literal navigates into a child
collection or document according to the flag and flips it; All forces
expectingCollection true without navigating; a collection expression
applies its sub-components in listed order when the cursor is a
collection and is ignored otherwise; a document expression does not
affect the cursor. -/
def specWalk : Reference → Bool → List Component → Reference × Bool
  | cursor, expecting, [] => (cursor, expecting)
  | cursor, expecting, Component.literal v :: rest =>
      if expecting then specWalk (Reference.collection cursor v) false rest
      else specWalk (Reference.doc cursor v) true rest
  | cursor, _, Component.all :: rest => specWalk cursor true rest
  | cursor, expecting, Component.collectionExpression comps :: rest =>
      if cursor.isCollectionReference then
        specWalk (comps.foldl applyExpressionComponent cursor) expecting rest
      else
        specWalk cursor expecting rest
  | cursor, expecting, Component.documentExpression _ :: rest =>
      specWalk cursor expecting rest

/-- Whether the component sequence contains a document expression. -/
def seenDocumentExpression (components : List Component) : Bool :=
  components.any fun c =>
    match c with
    | Component.documentExpression _ => true
    | _ => false

/-- One navigation or refinement call recorded on a reference. -/
inductive RefOp where
  | collOp (name : String)
  | docOp (name : String)
  | whereOp (field : String) (operator : String) (value : FsValue)
  | limitOp (n : Int)
  | orderOp (field : String) (dir : SortDir)
deriving DecidableEq, Repr

/-- The trace of calls that produced a reference, from the root outward. -/
def Reference.ops : Reference → List RefOp
  | .root => []
  | .collection parent name => parent.ops ++ [RefOp.collOp name]
  | .doc parent name => parent.ops ++ [RefOp.docOp name]
  | .whereR parent field operator value => parent.ops ++ [RefOp.whereOp field operator value]
  | .limitR parent n => parent.ops ++ [RefOp.limitOp n]
  | .orderByR parent field dir => parent.ops ++ [RefOp.orderOp field dir]

/-- The refinement call a collection-expression sub-component gives rise
to, per the source: direction 1 is ascending, anything else descending. -/
def expressionOp : ExpressionComponent → RefOp
  | .whereC field operator value => RefOp.whereOp field operator value
  | .limitC n => RefOp.limitOp n
  | .orderC field direction =>
      RefOp.orderOp field (if direction = 1 then SortDir.asc else SortDir.desc)

/-- Helper: the cursor and flag components of the parseQuery fold agree
with the specification walk, generalized over the starting state. -/
theorem foldl_processComponent_specWalk (components : List Component) (st : ParseState) :
    ((components.foldl processComponent st).reference,
      (components.foldl processComponent st).collection) =
      specWalk st.reference st.collection components := by
  induction components generalizing st with
  | nil => rfl
  | cons c rest ih =>
    cases c with
    | literal v =>
        by_cases h : st.collection
        · simp [List.foldl, processComponent, specWalk, h, ih]
        · simp [List.foldl, processComponent, specWalk, h, ih]
    | all => simp [List.foldl, processComponent, specWalk, ih]
    | collectionExpression comps =>
        by_cases h : st.reference.isCollectionReference
        · simp [List.foldl, processComponent, specWalk, h, ih]
        · simp [List.foldl, processComponent, specWalk, h, ih]
    | documentExpression comps =>
        simp [List.foldl, processComponent, specWalk, ih]

/-- C1: getQueryType returns COLLECTION exactly when the number of
components of variant literal is odd and DOCUMENT exactly when that count
is even, including zero; being a total Lean function of the component
sequence, it never fails on any input. -/
theorem getQueryType_parity (components : List Component) :
    (getQueryType components = QueryType.COLLECTION ↔
      Odd (components.filter Component.isLiteral).length) ∧
    (getQueryType components = QueryType.DOCUMENT ↔
      Even (components.filter Component.isLiteral).length) := by
  by_cases h : (components.filter Component.isLiteral).length % 2 = 0
  · simp [getQueryType, h, Nat.even_iff, Nat.odd_iff]
  · simp [getQueryType, h, Nat.even_iff, Nat.odd_iff]
    omega

/-- C2: parseQuery starts with the cursor at the store root and
expectingCollection true, and processes components in order, its cursor
and flag agreeing with the specification walk in which Literal(value)
navigates into the child collection named value and clears the flag when
the flag was set, otherwise navigates into the child document named value
and sets the flag, and All sets the flag without performing any
navigation step. -/
theorem parseQuery_follows_specWalk (components : List Component) :
    ((parseQuery components).reference, (parseQuery components).collection) =
      specWalk Reference.root true components ∧
    (∀ st : ParseState, ∀ v : String,
      processComponent st (Component.literal v) =
        if st.collection then
          { st with collection := false
                    reference := Reference.collection st.reference v }
        else
          { st with collection := true
                    reference := Reference.doc st.reference v }) ∧
    (∀ st : ParseState,
      processComponent st Component.all = { st with collection := true } ∧
      (processComponent st Component.all).reference = st.reference) := by
  refine ⟨foldl_processComponent_specWalk components initState, ?_, ?_⟩
  · intro st v
    rfl
  · intro st
    exact ⟨rfl, rfl⟩

/-- C6: a collection expression reached while the cursor is not a
CollectionReference is silently ignored: the parseQuery state, cursor
included, is unchanged and no error is raised (the step is total). -/
theorem collectionExpression_ignored (st : ParseState)
    (comps : List ExpressionComponent)
    (h : st.reference.isCollectionReference = false) :
    processComponent st (Component.collectionExpression comps) = st := by
  simp [processComponent, h]

/-- Witness for C6: a where, limit and order bundle applied while the
cursor is a document reference leaves the state untouched. -/
theorem collectionExpression_ignored_witness :
    (Reference.doc (Reference.collection Reference.root "users") "u1").isCollectionReference
      = false ∧
    processComponent
      { reference := Reference.doc (Reference.collection Reference.root "users") "u1"
        collection := true
        specificProperties := []
        documentExpression := false }
      (Component.collectionExpression
        [ExpressionComponent.whereC "age" ">" (FsValue.num 3),
         ExpressionComponent.limitC 5,
         ExpressionComponent.orderC "name" 1]) =
      { reference := Reference.doc (Reference.collection Reference.root "users") "u1"
        collection := true
        specificProperties := []
        documentExpression := false } :=
  ⟨rfl, collectionExpression_ignored _ _ rfl⟩

/-- Helper: applying one collection-expression sub-component appends
exactly its refinement call to the reference trace. -/
theorem applyExpressionComponent_ops (r : Reference) (c : ExpressionComponent) :
    (applyExpressionComponent r c).ops = r.ops ++ [expressionOp c] := by
  cases c <;> rfl

/-- Helper: folding the sub-components appends their refinement calls in
listed order. -/
theorem foldl_applyExpressionComponent_ops (comps : List ExpressionComponent)
    (r : Reference) :
    (comps.foldl applyExpressionComponent r).ops = r.ops ++ comps.map expressionOp := by
  induction comps generalizing r with
  | nil => simp
  | cons c rest ih =>
      simp [List.foldl, ih, applyExpressionComponent_ops]

/-- C7: a collection expression processed while the cursor is a
CollectionReference applies its sub-components to the reference in
exactly their listed order, with no reordering or deduplication: the
reference trace is extended by exactly one call per sub-component, where
maps to a where filter with its field, operator and value, limit to a
limit cap, and order to a sort key that is ascending when direction
equals 1 and descending for any other direction. -/
theorem collectionExpression_applied_in_order (st : ParseState)
    (comps : List ExpressionComponent)
    (h : st.reference.isCollectionReference = true) :
    (processComponent st (Component.collectionExpression comps)).reference.ops =
      st.reference.ops ++ comps.map expressionOp ∧
    (∀ field operator : String, ∀ value : FsValue,
      expressionOp (ExpressionComponent.whereC field operator value) =
        RefOp.whereOp field operator value) ∧
    (∀ n : Int, expressionOp (ExpressionComponent.limitC n) = RefOp.limitOp n) ∧
    (∀ field : String,
      expressionOp (ExpressionComponent.orderC field 1) = RefOp.orderOp field SortDir.asc) ∧
    (∀ field : String, ∀ d : Int, d ≠ 1 →
      expressionOp (ExpressionComponent.orderC field d) = RefOp.orderOp field SortDir.desc) := by
  refine ⟨?_, fun _ _ _ => rfl, fun _ => rfl, fun _ => rfl, ?_⟩
  · simp [processComponent, h, foldl_applyExpressionComponent_ops]
  · intro field d hd
    simp [expressionOp, hd]

/-- Witness for C7: a where, limit and descending order bundle applied on
a collection cursor extends the trace by those three calls in order. -/
theorem collectionExpression_applied_in_order_witness :
    (Reference.collection Reference.root "users").isCollectionReference = true ∧
    (processComponent
      { reference := Reference.collection Reference.root "users"
        collection := false
        specificProperties := []
        documentExpression := false }
      (Component.collectionExpression
        [ExpressionComponent.whereC "age" ">" (FsValue.num 3),
         ExpressionComponent.limitC 5,
         ExpressionComponent.orderC "name" (-1)])).reference.ops =
      (Reference.collection Reference.root "users").ops ++
        [ExpressionComponent.whereC "age" ">" (FsValue.num 3),
         ExpressionComponent.limitC 5,
         ExpressionComponent.orderC "name" (-1)].map expressionOp ∧
    expressionOp (ExpressionComponent.orderC "name" (-1)) =
      RefOp.orderOp "name" SortDir.desc := by
  refine ⟨rfl, ?_, ?_⟩
  · exact (collectionExpression_applied_in_order
      { reference := Reference.collection Reference.root "users"
        collection := false
        specificProperties := []
        documentExpression := false }
      [ExpressionComponent.whereC "age" ">" (FsValue.num 3),
       ExpressionComponent.limitC 5,
       ExpressionComponent.orderC "name" (-1)] rfl).1
  · exact (collectionExpression_applied_in_order
      { reference := Reference.collection Reference.root "users"
        collection := false
        specificProperties := []
        documentExpression := false }
      [] rfl).2.2.2.2 "name" (-1) (by decide)

/-- C3: a one-shot DOCUMENT-mode execution fails with the No such document
error when the fetched snapshot reports the document absent, and returns
exactly one Document built from the snapshot honoring the projection when
it exists. -/
theorem getResult_document_mode (snapshot : DocumentSnapshot)
    (collSnapshots : List DocumentSnapshot) (specificProperties : List String) :
    (snapshot.docExists = false →
      getResult QueryType.DOCUMENT snapshot collSnapshots specificProperties =
        Except.error noSuchDocument) ∧
    (snapshot.docExists = true →
      getResult QueryType.DOCUMENT snapshot collSnapshots specificProperties =
        Except.ok [mkDocument snapshot specificProperties]) := by
  constructor <;> intro h <;> simp [getResult, h]

/-- Witness for C3: a missing document fails with the error, an existing
one yields exactly its one projected Document. -/
theorem getResult_document_mode_witness :
    getResult QueryType.DOCUMENT
      { path := ["users", "missing"], docExists := false, data := [] } [] [] =
      Except.error noSuchDocument ∧
    getResult QueryType.DOCUMENT
      { path := ["users", "u1"], docExists := true
        data := [("name", FsValue.str "A"), ("age", FsValue.num 3)] } [] ["name"] =
      Except.ok [mkDocument
        { path := ["users", "u1"], docExists := true
          data := [("name", FsValue.str "A"), ("age", FsValue.num 3)] } ["name"]] :=
  ⟨(getResult_document_mode _ [] []).1 rfl, (getResult_document_mode _ [] ["name"]).2 rfl⟩

/-- Helper: the push loop over snapshots is a map, preserving order. -/
theorem foldl_push_map {α β : Type} (f : α → β) (xs : List α) (acc : List β) :
    xs.foldl (fun ds s => ds ++ [f s]) acc = acc ++ xs.map f := by
  induction xs generalizing acc with
  | nil => simp
  | cons x rest ih => simp [List.foldl, ih]

/-- C4: a one-shot COLLECTION-mode execution returns one Document per
store-returned snapshot, in exactly the store-returned order, with no
re-sorting, dropping or coalescing: the document list is the map of
Document construction over the snapshot list. -/
theorem getResult_collection_order (docSnapshot : DocumentSnapshot)
    (collSnapshots : List DocumentSnapshot) (specificProperties : List String) :
    getResult QueryType.COLLECTION docSnapshot collSnapshots specificProperties =
      Except.ok (collSnapshots.map (fun s => mkDocument s specificProperties)) := by
  simp [getResult, foldl_push_map]

/-- C5: in a live DOCUMENT-mode subscription, a notification for a missing
document invokes the listener as (null, No such document), a notification
for an existing document invokes it with a one-Document result and a null
error, and the error callback registered in both DOCUMENT and COLLECTION
mode delivers every transport error as (null, error); the handlers are
pure delivery functions, with no retry or re-registration action in the
model. -/
theorem setListener_document_mode (specificProperties : List String)
    (snapshot : DocumentSnapshot) (e : Err) :
    (setListener QueryType.DOCUMENT specificProperties).onDocEvent =
      some (documentSnapshotHandler specificProperties) ∧
    (snapshot.docExists = false →
      documentSnapshotHandler specificProperties snapshot = (none, some noSuchDocument)) ∧
    (snapshot.docExists = true →
      documentSnapshotHandler specificProperties snapshot =
        (some { documents := [mkDocument snapshot specificProperties]
                projected := decide (0 < specificProperties.length) }, none)) ∧
    (setListener QueryType.DOCUMENT specificProperties).onError e = (none, some e) ∧
    (setListener QueryType.COLLECTION specificProperties).onError e = (none, some e) := by
  refine ⟨rfl, ?_, ?_, rfl, rfl⟩ <;> intro h <;> simp [documentSnapshotHandler, h]

/-- Witness for C5: concrete missing and existing document notifications
and a concrete transport error. -/
theorem setListener_document_mode_witness :
    documentSnapshotHandler ["name"]
      { path := ["users", "gone"], docExists := false, data := [] } =
      (none, some noSuchDocument) ∧
    documentSnapshotHandler ["name"]
      { path := ["users", "u1"], docExists := true
        data := [("name", FsValue.str "A")] } =
      (some { documents := [mkDocument
                { path := ["users", "u1"], docExists := true
                  data := [("name", FsValue.str "A")] } ["name"]]
              projected := decide (0 < (["name"] : List String).length) }, none) ∧
    (setListener QueryType.COLLECTION ["name"]).onError { message := "net down" } =
      (none, some { message := "net down" }) :=
  ⟨(setListener_document_mode ["name"] _ { message := "net down" }).2.1 rfl,
   (setListener_document_mode ["name"] _ { message := "net down" }).2.2.1 rfl,
   (setListener_document_mode ["name"]
      { path := ["users", "gone"], docExists := false, data := [] }
      { message := "net down" }).2.2.2.2⟩

/-- Helper: a subscription whose identity the slot does not hold, and
whose identity is below the next fresh identity, stays active under any
further sequence of registrations and slot invocations. -/
theorem leak_invariant (ops : List SubOp) :
    ∀ st : ProcessState, ∀ i : Nat,
      i ∈ st.activeSubs → st.unsubscribeSlot ≠ some i → i < st.nextId →
      i ∈ (runOps st ops).activeSubs := by
  induction ops with
  | nil =>
      intro st i hmem _ _
      exact hmem
  | cons op rest ih =>
      intro st i hmem hslot hlt
      cases op with
      | register =>
          have h1 : i ∈ (registerListener st).activeSubs := by
            simp [registerListener]
            exact Or.inl hmem
          have h2 : (registerListener st).unsubscribeSlot ≠ some i := by
            simp [registerListener]
            omega
          have h3 : i < (registerListener st).nextId := by
            simp [registerListener]
            omega
          exact ih (registerListener st) i h1 h2 h3
      | unsubscribeCall =>
          cases hs : st.unsubscribeSlot with
          | none =>
              have hid : invokeUnsubscribe st = st := by
                simp [invokeUnsubscribe, hs]
              exact ih (invokeUnsubscribe st) i (by rw [hid]; exact hmem)
                (by rw [hid]; exact hslot) (by rw [hid]; exact hlt)
          | some j =>
              have hne : i ≠ j := by
                intro hij
                exact hslot (by rw [hs, hij])
              have h1 : i ∈ (invokeUnsubscribe st).activeSubs := by
                simp [invokeUnsubscribe, hs, List.mem_filter]
                exact ⟨hmem, hne⟩
              have h2 : (invokeUnsubscribe st).unsubscribeSlot ≠ some i := by
                simp [invokeUnsubscribe, hs]
                omega
              have h3 : i < (invokeUnsubscribe st).nextId := by
                simp [invokeUnsubscribe, hs]
                exact hlt
              exact ih (invokeUnsubscribe st) i h1 h2 h3

/-- C8: the process keeps exactly one shared unsubscribe slot; every
registration overwrites it with the new handle, so after a second live
query is registered before the first is cancelled, the slot no longer
refers to the first subscription, and the first subscription stays
active — its listener keeps firing — under every further sequence of
registrations and slot invocations, until process exit. -/
theorem unsubscribe_slot_leak (st0 : ProcessState) (ops : List SubOp) :
    (∀ st : ProcessState, (registerListener st).unsubscribeSlot = some st.nextId) ∧
    (registerListener (registerListener st0)).unsubscribeSlot ≠ some st0.nextId ∧
    st0.nextId ∈ (registerListener (registerListener st0)).activeSubs ∧
    st0.nextId ∈ (runOps (registerListener (registerListener st0)) ops).activeSubs := by
  have hslot : (registerListener (registerListener st0)).unsubscribeSlot ≠ some st0.nextId := by
    simp [registerListener]
  have hmem : st0.nextId ∈ (registerListener (registerListener st0)).activeSubs := by
    simp [registerListener]
  have hlt : st0.nextId < (registerListener (registerListener st0)).nextId := by
    simp [registerListener]
    omega
  exact ⟨fun st => rfl, hslot, hmem, leak_invariant ops _ st0.nextId hmem hslot hlt⟩

/-- Helper: the documentExpression flag of the parseQuery fold is the
disjunction of the starting flag with the presence of a document
expression among the components. -/
theorem foldl_documentExpression (components : List Component) (st : ParseState) :
    (components.foldl processComponent st).documentExpression =
      (st.documentExpression || seenDocumentExpression components) := by
  induction components generalizing st with
  | nil => simp [seenDocumentExpression]
  | cons c rest ih =>
      cases c with
      | literal v =>
          by_cases h : st.collection <;>
            simp [List.foldl, processComponent, h, ih, seenDocumentExpression, List.any_cons]
      | all =>
          simp [List.foldl, processComponent, ih, seenDocumentExpression, List.any_cons]
      | collectionExpression comps =>
          by_cases h : st.reference.isCollectionReference <;>
            simp [List.foldl, processComponent, h, ih, seenDocumentExpression, List.any_cons]
      | documentExpression comps =>
          simp [List.foldl, processComponent, ih, seenDocumentExpression, List.any_cons]

/-- C9: the projected flag differs between execution modes: the one-shot
path marks the result projected exactly when a document expression was
seen, even one with an empty field list, while the live handlers mark it
projected exactly when the projection field list is non-empty; hence for
the query consisting of a document expression with an empty field list, a
one-shot result is projected and a live-mode result is not. -/
theorem projected_flag_mode_mismatch (components : List Component)
    (docSnapshot : DocumentSnapshot) (hex : docSnapshot.docExists = true) :
    ((parseQuery components).documentExpression = seenDocumentExpression components) ∧
    (getQueryType components = QueryType.DOCUMENT →
      (queryModel (Except.ok components) none docSnapshot [] false).promise =
        Except.ok (some (QueryResult.mk
          [mkDocument docSnapshot (parseQuery components).specificProperties]
          (seenDocumentExpression components)))) ∧
    ((documentSnapshotHandler (parseQuery components).specificProperties docSnapshot).1 =
      some { documents := [mkDocument docSnapshot (parseQuery components).specificProperties]
             projected := decide (0 < (parseQuery components).specificProperties.length) }) ∧
    ((collectionSnapshotHandler (parseQuery components).specificProperties []).1.map
        QueryResult.projected =
      some (decide (0 < (parseQuery components).specificProperties.length))) ∧
    ((queryModel (Except.ok [Component.documentExpression []]) none docSnapshot [] false).promise =
      Except.ok (some { documents := [mkDocument docSnapshot []], projected := true })) ∧
    ((documentSnapshotHandler
        (parseQuery [Component.documentExpression []]).specificProperties docSnapshot).1 =
      some { documents := [mkDocument docSnapshot []], projected := false }) := by
  have hflag : (parseQuery components).documentExpression = seenDocumentExpression components := by
    simpa [parseQuery, initState] using foldl_documentExpression components initState
  refine ⟨hflag, ?_, ?_, ?_, ?_, ?_⟩
  · intro hq
    simp [queryModel, hq, getResult, hex, hflag]
  · simp [documentSnapshotHandler, hex]
  · rfl
  · simp [queryModel, getQueryType, parseQuery, processComponent, initState, getResult, hex,
      List.filter, Component.isLiteral]
  · simp [documentSnapshotHandler, hex, parseQuery, processComponent, initState]

/-- Witness for C9: a two-literal DOCUMENT query with a projection list
against an existing document. -/
theorem projected_flag_mode_mismatch_witness :
    (queryModel (Except.ok [Component.literal "users", Component.literal "u1",
        Component.documentExpression ["name"]]) none
        { path := ["users", "u1"], docExists := true
          data := [("name", FsValue.str "A")] } [] false).promise =
      Except.ok (some (QueryResult.mk
        [mkDocument
          { path := ["users", "u1"], docExists := true
            data := [("name", FsValue.str "A")] }
          (parseQuery [Component.literal "users", Component.literal "u1",
            Component.documentExpression ["name"]]).specificProperties]
        (seenDocumentExpression [Component.literal "users",
          Component.literal "u1", Component.documentExpression ["name"]]))) :=
  ((projected_flag_mode_mismatch
      [Component.literal "users", Component.literal "u1",
        Component.documentExpression ["name"]]
      { path := ["users", "u1"], docExists := true
        data := [("name", FsValue.str "A")] } rfl).2.1) (by decide)

/-- C10: when a change listener is provided and the try block of query
throws, during parsing or during reference building and listener
registration, the catch block signals the error on both channels: the
listener is invoked with (null, error) and the returned promise is
rejected with the same error. -/
theorem query_error_dual_channel (e : Err) (components : List Component)
    (docSnapshot : DocumentSnapshot) (collSnapshots : List DocumentSnapshot) :
    queryModel (Except.error e) none docSnapshot collSnapshots true =
      { listenerCalls := [(none, some e)], promise := Except.error e } ∧
    queryModel (Except.ok components) (some e) docSnapshot collSnapshots true =
      { listenerCalls := [(none, some e)], promise := Except.error e } :=
  ⟨rfl, rfl⟩

end Fireman
